import Mathlib

/-!
Verification of the audio dataset recording tool (`audio_recorder.py`).

The development shallowly embeds the `AudioRecorder` capture pipeline:
the per-chunk recording loop of `_record_thread`, the inline level-meter
computation, `_save_wav`, the playback thread `_play_test_thread`, and the
`MainWindow` guards of `start_recording` / `record_test`.  Device I/O,
cancellation and exceptions are modelled by an explicit environment record
that fixes, per run, what each device read returns, at which loop iteration
the cooperative cancellation flag is first observed false, and which
operations raise.
-/

/-- Audio parameter from `AudioRecorder.__init__`: `self.CHUNK = 1024`. -/
abbrev CHUNK : ℕ := 1024

/-- Audio parameter from `AudioRecorder.__init__`: `self.CHANNELS = 1`. -/
abbrev CHANNELS : ℕ := 1

/-- Audio parameter from `AudioRecorder.__init__`: `self.RATE = 48000`. -/
abbrev RATE : ℕ := 48000

/-- Audio parameter from `AudioRecorder.__init__`: `self.SAMPLE_WIDTH = 2`. -/
abbrev SAMPLE_WIDTH : ℕ := 2

/-- Sum of squared samples of a chunk, as a natural number.  This is the
exact value of the float expression `np.sum(audio_data.astype(np.float64) ** 2)`
underlying `np.mean(...)` in `_record_thread` (squares of 16-bit samples and
their sums over a chunk are exactly representable in float64). -/
def sumSq (chunk : List ℤ) : ℕ :=
  (chunk.map (fun x => (x * x).toNat)).sum

/-- Embedding of the per-chunk level computation inlined in `_record_thread`
(lines 200-210): with `n = len(audio_data)` and `S` the sum of squared
samples, the code computes `rms = sqrt(S / n)`, `level = int(rms / 32768.0
* 100)` and emits `min(100, level)`; when the chunk is empty it emits `0`.
In exact arithmetic `int(sqrt(S / n) / 32768 * 100) =
⌊sqrt(10000 * S * n)⌋ / (n * 32768)` (floor of a quotient by an integer is
the floored quotient of the floor, and `sqrt(S / n) * 100 / 32768 =
sqrt(10000 * S * n) / (n * 32768)`), which is the computable form used
here.  The code's `if mean_square >= 0` guard is always true (a mean of
squares is nonnegative), so its `else` branch is dead and does not appear. -/
def compute_level (chunk : List ℤ) : ℕ :=
  if chunk.length = 0 then 0
  else min 100 (Nat.sqrt (10000 * sumSq chunk * chunk.length) / (chunk.length * 32768))

/-- Embedding of `chunks_needed = int(self.RATE / self.CHUNK * duration)`
(`_record_thread`, line 190).  The Python expression divides and multiplies
IEEE doubles: `48000 / 1024 = 46.875` is a dyadic rational, exactly
representable, and its product with an integer duration (the UI's spin box
allows 1..300) stays well below 2^53, so every intermediate value is exact
and `int` truncates the exact rational value.  The embedding therefore
takes the floor of the exact rational. -/
def chunks_needed (duration : ℕ) : ℕ :=
  ⌊(RATE : ℚ) / (CHUNK : ℚ) * (duration : ℚ)⌋₊

/-- Environment of one capture run of `_record_thread`: everything the
thread observes from the outside world.  `openOk` is whether
`self.p.open(...)` succeeds; `readErr i` is whether the device read of loop
iteration `i` raises; `read i` is the byte string that read returns when it
does not raise; `cancelAt` is the first loop iteration at which the
`if not self.is_recording` check observes the cooperative cancellation flag
(set by `stop_recording`) as false — iterations before `cancelAt` observe
the flag still true.  Once observed false the flag stays false: nothing
sets `is_recording` back to true during a run.  `saveOk` is whether
`self._save_wav(output_path)` succeeds. -/
structure RecEnv where
  openOk : Bool
  readErr : ℕ → Bool
  read : ℕ → List ℕ
  cancelAt : ℕ
  saveOk : Bool

/-- The `for _ in range(chunks_needed)` loop of `_record_thread`
(lines 193-210), with `n` iterations remaining and `i` the current
iteration index.  Each iteration first checks the cancellation flag and
breaks, then performs `stream.read`, which either raises (second component
`true`, aborting the loop and the surrounding `try`) or appends the chunk
to `self.frames`.  The level computation and `level_update.emit` do not
affect the accumulated frames and are modelled separately by
`compute_level`. -/
def readLoop (env : RecEnv) : ℕ → ℕ → List (List ℕ) × Bool
  | 0, _ => ([], false)
  | n + 1, i =>
    if env.cancelAt ≤ i then ([], false)
    else if env.readErr i then ([], true)
    else
      let r := readLoop env n (i + 1)
      (env.read i :: r.1, r.2)

/-- The WAV artifact handed to the `wave` module by `_save_wav`: the
metadata set through `setnchannels` / `setsampwidth` / `setframerate` and
the payload passed to `writeframes`. -/
structure WavFile where
  nchannels : ℕ
  sampwidth : ℕ
  framerate : ℕ
  payload : List ℕ
  deriving DecidableEq

/-- Embedding of `_save_wav` (lines 226-233): mono, 2-byte samples,
48000 Hz, payload `b''.join(self.frames)`. -/
def save_wav (frames : List (List ℕ)) : WavFile :=
  { nchannels := CHANNELS
    sampwidth := SAMPLE_WIDTH
    framerate := RATE
    payload := frames.flatten }

/-- Observable outcome of one `_record_thread` run: the payload of the
single terminal `recording_complete.emit` (success flag and message), the
WAV file written (none when `_save_wav` was not reached or raised), whether
the device stream was opened, whether `stream.stop_stream(); stream.close()`
ran, and the final `self.frames`. -/
structure RunResult where
  emitted : Bool × String
  savedWav : Option WavFile
  streamOpened : Bool
  streamClosed : Bool
  frames : List (List ℕ)
  deriving DecidableEq

/-- Embedding of `_record_thread` (lines 173-224).  The whole body is one
`try` whose `except Exception` arm emits `recording_complete(False, ...)`.
On the normal path the loop exit (natural or cancelled) is followed by
`stream.stop_stream(); stream.close()`, then `_save_wav`, then
`recording_complete.emit(True, f"Saved to {output_path}")`.  An exception
raised by a device read inside the loop jumps straight to the `except`
arm: the two stream-closing calls are skipped (there is no `finally`).
A `_save_wav` failure happens after the stream was already closed.
The message strings stand for the code's `f"Saved to {output_path}"` and
`f"Error: {str(e)}"`. -/
def record_thread (env : RecEnv) (duration : ℕ) : RunResult :=
  if ¬ env.openOk then
    { emitted := (false, "Error: open failed")
      savedWav := none
      streamOpened := false
      streamClosed := false
      frames := [] }
  else
    let r := readLoop env (chunks_needed duration) 0
    if r.2 then
      { emitted := (false, "Error: read failed")
        savedWav := none
        streamOpened := true
        streamClosed := false
        frames := r.1 }
    else if env.saveOk then
      { emitted := (true, "Saved to output_path")
        savedWav := some (save_wav r.1)
        streamOpened := true
        streamClosed := true
        frames := r.1 }
    else
      { emitted := (false, "Error: save failed")
        savedWav := none
        streamOpened := true
        streamClosed := true
        frames := r.1 }

/-- Environment of one playback attempt (`play_test` plus
`_play_test_thread`, lines 126-163): whether `self.test_file_path` is set
and the file exists, whether `wave.open(self.test_file_path, 'rb')`
succeeds, whether `self.p.open(..., output=True)` succeeds, the sample
width recorded in the file's header, and the chunk-sized blocks that
successive `wf.readframes(self.CHUNK)` calls return.  `sampwidth` is
carried only to record that the code never inspects it. -/
structure PlayEnv where
  fileExists : Bool
  headerOk : Bool
  deviceOk : Bool
  sampwidth : ℕ
  fileFrames : List (List ℕ)

/-- Observable outcome of one playback attempt: whether the background
thread was started (`play_test` returned `True`), the blocks written to the
output stream, and the payload of a completion event, if any is emitted. -/
structure PlayResult where
  started : Bool
  written : List (List ℕ)
  emitted : Option (Bool × String)
  deriving DecidableEq

/-- Embedding of `play_test` and `_play_test_thread`.  `play_test` returns
`False` without starting a thread when the test file path is unset or the
file is absent.  The thread body is a `try` whose `except` arm is `pass`:
a failing `wave.open` or a failing output-device open is swallowed
silently.  No completion signal of any kind is defined or emitted for
playback (`emitted` is always `none`), and the file's sample width is
never validated — the output stream is always opened with the fixed
`paInt16` format. -/
def play_test (env : PlayEnv) : PlayResult :=
  if ¬ env.fileExists then
    { started := false, written := [], emitted := none }
  else if ¬ env.headerOk then
    { started := true, written := [], emitted := none }
  else if ¬ env.deviceOk then
    { started := true, written := [], emitted := none }
  else
    { started := true, written := env.fileFrames, emitted := none }

/-- The recording-related state of `MainWindow` that its start guards read
and write: the `is_testing` / `is_recording` flags, whether a device is
selected in the combo box (`currentData() is not None`), and a counter of
device-open calls made on behalf of this window (each accepted start
request hands off to `AudioRecorder`, whose thread calls `self.p.open`). -/
structure UiState where
  is_testing : Bool
  is_recording : Bool
  deviceSelected : Bool
  deviceOpens : ℕ
  deriving DecidableEq

/-- Embedding of `MainWindow.start_recording` (lines 561-609): the guard is
`if self.is_recording: return` — the `is_testing` flag is not consulted
(the comment on line 566 explicitly takes no action about an active test).
When not rejected and a device is selected, the recorder is started, which
opens a device stream. -/
def start_recording (s : UiState) : UiState :=
  if s.is_recording then s
  else if ¬ s.deviceSelected then s
  else { s with is_recording := true, deviceOpens := s.deviceOpens + 1 }

/-- Embedding of `MainWindow.record_test` (lines 492-513): the guard is
`if self.is_testing or self.is_recording: return`.  When not rejected and
a device is selected, the test recorder is started, which opens a device
stream. -/
def record_test (s : UiState) : UiState :=
  if s.is_testing ∨ s.is_recording then s
  else if ¬ s.deviceSelected then s
  else { s with is_testing := true, deviceOpens := s.deviceOpens + 1 }

/-- Little-endian 2-byte encoding of a 16-bit field. -/
def le16 (n : ℕ) : List ℕ :=
  [n % 256, n / 256 % 256]

/-- Little-endian 4-byte encoding of a 32-bit field. -/
def le32 (n : ℕ) : List ℕ :=
  [n % 256, n / 256 % 256, n / 65536 % 256, n / 16777216 % 256]

/-- Modelled from the spec: the Python `wave` module writer that
`_save_wav` drives is not part of this repository; the spec describes its
output as "a standard WAV container: RIFF header, fmt sub-chunk (PCM,
given channel/rate/width), data sub-chunk whose length equals the
concatenation of all chunk byte lengths, in original order, with no
resampling or re-encoding".  This serializer produces exactly that
container: `RIFF` magic, riff-chunk size, `WAVE`, `fmt ` sub-chunk of
size 16 with PCM tag 1, channel count, sample rate, byte rate, block
align and bits per sample, then a `data` sub-chunk holding the payload. -/
def wav_serialize (channels width rate : ℕ) (payload : List ℕ) : List ℕ :=
  [82, 73, 70, 70] ++ le32 (36 + payload.length) ++
  [87, 65, 86, 69] ++
  [102, 109, 116, 32] ++ le32 16 ++ le16 1 ++
  le16 channels ++ le32 rate ++ le32 (rate * channels * width) ++
  le16 (channels * width) ++ le16 (8 * width) ++
  [100, 97, 116, 97] ++ le32 payload.length ++ payload

/-- The byte stream that `_save_wav` leaves on disk for a given WavFile. -/
def wav_file_bytes (w : WavFile) : List ℕ :=
  wav_serialize w.nchannels w.sampwidth w.framerate w.payload

/-- Reads four bytes off the front of a byte stream. -/
def read4 (bs : List ℕ) : Option ((ℕ × ℕ × ℕ × ℕ) × List ℕ) :=
  match bs with
  | a :: b :: c :: d :: rest => some ((a, b, c, d), rest)
  | _ => none

/-- Reads two bytes off the front of a byte stream. -/
def read2 (bs : List ℕ) : Option ((ℕ × ℕ) × List ℕ) :=
  match bs with
  | a :: b :: rest => some ((a, b), rest)
  | _ => none

/-- Value of a little-endian 4-byte field. -/
def val4 (q : ℕ × ℕ × ℕ × ℕ) : ℕ :=
  q.1 + 256 * q.2.1 + 65536 * q.2.2.1 + 16777216 * q.2.2.2

/-- Value of a little-endian 2-byte field. -/
def val2 (p : ℕ × ℕ) : ℕ :=
  p.1 + 256 * p.2

/-- Modelled from the spec: the `wave` module reader used to read a
recording back (the repository itself only ever reads WAV files through
`wave.open(..., 'rb')` in `_play_test_thread`).  It accepts exactly the
canonical container `wav_serialize` emits — RIFF/WAVE magic, a 16-byte
PCM `fmt ` sub-chunk, then a `data` sub-chunk whose declared length must
match the remaining bytes — and returns the header's channel count,
frame rate and sample width together with the raw payload. -/
def wav_parse (bs0 : List ℕ) : Option (ℕ × ℕ × ℕ × List ℕ) :=
  match read4 bs0 with
  | none => none
  | some (riff, bs1) =>
  match read4 bs1 with
  | none => none
  | some (_, bs2) =>
  match read4 bs2 with
  | none => none
  | some (waveMagic, bs3) =>
  match read4 bs3 with
  | none => none
  | some (fmtMagic, bs4) =>
  match read4 bs4 with
  | none => none
  | some (fmtSize, bs5) =>
  match read2 bs5 with
  | none => none
  | some (fmtTag, bs6) =>
  match read2 bs6 with
  | none => none
  | some (ch, bs7) =>
  match read4 bs7 with
  | none => none
  | some (rt, bs8) =>
  match read4 bs8 with
  | none => none
  | some (_, bs9) =>
  match read2 bs9 with
  | none => none
  | some (_, bs10) =>
  match read2 bs10 with
  | none => none
  | some (bits, bs11) =>
  match read4 bs11 with
  | none => none
  | some (dataMagic, bs12) =>
  match read4 bs12 with
  | none => none
  | some (ln, rest) =>
  if riff = (82, 73, 70, 70) ∧ waveMagic = (87, 65, 86, 69) ∧
     fmtMagic = (102, 109, 116, 32) ∧ val4 fmtSize = 16 ∧ val2 fmtTag = 1 ∧
     dataMagic = (100, 97, 116, 97) ∧ val2 bits % 8 = 0 ∧
     rest.length = val4 ln
  then some (val2 ch, val4 rt, val2 bits / 8, rest)
  else none

/-- A benign capture environment: the device opens, every read succeeds
and returns a full chunk of `CHUNK` frames of `SAMPLE_WIDTH`-byte silence
(2048 bytes), saving succeeds, and cancellation is never requested within
the first million iterations. -/
def okEnv : RecEnv :=
  { openOk := true
    readErr := fun _ => false
    read := fun _ => List.replicate 2048 0
    cancelAt := 1000000
    saveOk := true }

/-- A capture environment identical to `okEnv` except that cancellation is
observed at loop iteration 5. -/
def cancelEnv : RecEnv :=
  { okEnv with cancelAt := 5 }

/-- A capture environment in which the device opens but the very first
`stream.read` raises. -/
def readErrEnv : RecEnv :=
  { okEnv with readErr := fun _ => true }

/-- A playback environment whose test file exists but whose WAV header is
malformed, so `wave.open` raises. -/
def badHeaderEnv : PlayEnv :=
  { fileExists := true
    headerOk := false
    deviceOk := true
    sampwidth := 2
    fileFrames := [[1, 2]] }

/-- A playback environment in which the test file does not exist. -/
def absentFileEnv : PlayEnv :=
  { fileExists := false
    headerOk := true
    deviceOk := true
    sampwidth := 2
    fileFrames := [[1]] }

/-- A capture environment whose device open fails. -/
def openErrEnv : RecEnv :=
  { okEnv with openOk := false }

/-- The window state while a 3-second test recording is still running:
`is_testing` is set, no dataset capture is active, a device is selected,
and one device stream has been opened (by the test). -/
def testingState : UiState :=
  { is_testing := true
    is_recording := false
    deviceSelected := true
    deviceOpens := 1 }

/-- The window state while a dataset capture is running. -/
def recordingState : UiState :=
  { is_testing := false
    is_recording := true
    deviceSelected := true
    deviceOpens := 1 }

/-- A capture environment in which cancellation is observed before the
first chunk is read. -/
def cancel0Env : RecEnv :=
  { okEnv with cancelAt := 0 }

/-- The truncated float computation of `chunks_needed` equals floor
division of `RATE * duration` by `CHUNK` on the naturals. -/
theorem chunks_needed_eq (duration : ℕ) :
    chunks_needed duration = RATE * duration / CHUNK := by
  unfold chunks_needed
  have h : (RATE : ℚ) / (CHUNK : ℚ) * (duration : ℚ)
      = ((RATE * duration : ℕ) : ℚ) / ((CHUNK : ℕ) : ℚ) := by
    push_cast
    ring
  rw [h, Nat.floor_div_nat, Nat.floor_natCast]

example : chunks_needed 1 = 46 := by rw [chunks_needed_eq]; decide

example : compute_level [] = 0 := by decide

example : compute_level [(-32768 : ℤ)] = 100 := by
  have h1 : compute_level [(-32768 : ℤ)] =
      min 100 (Nat.sqrt (10000 * sumSq [(-32768 : ℤ)] * [(-32768 : ℤ)].length) /
        ([(-32768 : ℤ)].length * 32768)) := by
    unfold compute_level
    rw [if_neg (by decide)]
  have h2 : sumSq [(-32768 : ℤ)] = 1073741824 := by decide
  have h3 : ([(-32768 : ℤ)] : List ℤ).length = 1 := by decide
  rw [h1, h2, h3]
  have h4 : Nat.sqrt (10000 * 1073741824 * 1) = 3276800 := by
    symm
    rw [Nat.eq_sqrt]
    constructor <;> decide
  rw [h4]
  norm_num

example : wav_parse (wav_serialize 1 2 48000 [5, 6]) = some (1, 48000, 2, [5, 6]) := by decide

theorem wav_parse_serialize (payload : List ℕ) (h : payload.length < 4294967296) :
    wav_parse (wav_serialize 1 2 48000 payload) = some (1, 48000, 2, payload) := by
  have hlen : payload.length % 256 + 256 * (payload.length / 256 % 256) +
      65536 * (payload.length / 65536 % 256) +
      16777216 * (payload.length / 16777216 % 256) = payload.length := by
    omega
  simp only [wav_serialize, le16, le32, List.cons_append, List.nil_append]
  norm_num [wav_parse, read4, read2, val4, val2]
  intro hcon
  exact absurd hlen.symm hcon

theorem readLoop_noerr_snd (env : RecEnv) (h : ∀ j, env.readErr j = false) :
    ∀ n i, (readLoop env n i).2 = false := by
  intro n
  induction n with
  | zero => intro i; simp [readLoop]
  | succ n ih =>
    intro i
    by_cases hc : env.cancelAt ≤ i
    · simp [readLoop, hc]
    · simp [readLoop, hc, h i, ih (i + 1)]

theorem readLoop_length (env : RecEnv) (h : ∀ j, env.readErr j = false) :
    ∀ n i, (readLoop env n i).1.length = min n (env.cancelAt - i) := by
  intro n
  induction n with
  | zero => intro i; simp [readLoop]
  | succ n ih =>
    intro i
    by_cases hc : env.cancelAt ≤ i
    · simp only [readLoop, if_pos hc, List.length_nil]
      omega
    · simp only [readLoop, if_neg hc, h i, if_neg (by decide : ¬(false = true)),
        List.length_cons, ih (i + 1)]
      omega

theorem readLoop_frames_mem (env : RecEnv) :
    ∀ n i a, a ∈ (readLoop env n i).1 → ∃ j, a = env.read j := by
  intro n
  induction n with
  | zero => intro i a ha; simp [readLoop] at ha
  | succ n ih =>
    intro i a ha
    by_cases hc : env.cancelAt ≤ i
    · simp [readLoop, hc] at ha
    · by_cases he : env.readErr i
      · simp [readLoop, hc, he] at ha
      · simp [readLoop, hc, he] at ha
        rcases ha with ha | ha
        · exact ⟨i, ha⟩
        · exact ih (i + 1) a ha

theorem flatten_length_const (L : ℕ) :
    ∀ l : List (List ℕ), (∀ a ∈ l, a.length = L) → l.flatten.length = l.length * L := by
  intro l
  induction l with
  | nil => simp
  | cons x xs ih =>
    intro hx
    have h1 : x.length = L := hx x (by simp)
    have h2 : xs.flatten.length = xs.length * L := ih (fun a ha => hx a (by simp [ha]))
    simp [List.length_append, h1, h2]
    ring

theorem record_thread_noerr (env : RecEnv) (duration : ℕ)
    (ho : env.openOk = true) (hs : env.saveOk = true)
    (hr : ∀ j, env.readErr j = false) :
    record_thread env duration =
      { emitted := (true, "Saved to output_path")
        savedWav := some (save_wav (readLoop env (chunks_needed duration) 0).1)
        streamOpened := true
        streamClosed := true
        frames := (readLoop env (chunks_needed duration) 0).1 } := by
  unfold record_thread
  simp [ho, hs, readLoop_noerr_snd env hr]

/-- Claim C1: for every capture run at rate 48000, chunk size 1024 and
duration D, absent cancellation and errors, the number of chunks appended
to the accumulated frame list equals floor(RATE*D / CHUNK), and the byte
length of the WAV payload written by `_save_wav` equals
`chunks * CHUNK * SAMPLE_WIDTH * CHANNELS`. -/
theorem record_run_chunk_count_and_payload (env : RecEnv) (duration : ℕ)
    (ho : env.openOk = true) (hs : env.saveOk = true)
    (hr : ∀ j, env.readErr j = false)
    (hcancel : chunks_needed duration ≤ env.cancelAt)
    (hread : ∀ j, (env.read j).length = CHUNK * SAMPLE_WIDTH * CHANNELS) :
    (record_thread env duration).frames.length = RATE * duration / CHUNK ∧
    (record_thread env duration).savedWav =
      some (save_wav (record_thread env duration).frames) ∧
    (save_wav (record_thread env duration).frames).payload.length =
      (RATE * duration / CHUNK) * (CHUNK * SAMPLE_WIDTH * CHANNELS) := by
  rw [record_thread_noerr env duration ho hs hr]
  have hlen : (readLoop env (chunks_needed duration) 0).1.length = chunks_needed duration := by
    rw [readLoop_length env hr]
    omega
  have hflat : (readLoop env (chunks_needed duration) 0).1.flatten.length =
      (readLoop env (chunks_needed duration) 0).1.length * (CHUNK * SAMPLE_WIDTH * CHANNELS) := by
    refine flatten_length_const _ _ (fun a ha => ?_)
    obtain ⟨j, rfl⟩ := readLoop_frames_mem env _ _ a ha
    exact hread j
  refine ⟨?_, rfl, ?_⟩
  · rw [hlen, chunks_needed_eq]
  · show (readLoop env (chunks_needed duration) 0).1.flatten.length = _
    rw [hflat, hlen, chunks_needed_eq]

/-- Witness for C1 at the spec's scenario: duration 1 s gives
floor(48000/1024) = 46 chunks and a 46 * 1024 * 2 = 94208-byte payload. -/
theorem record_run_chunk_count_and_payload_witness :
    (record_thread okEnv 1).frames.length = 46 ∧
    (save_wav (record_thread okEnv 1).frames).payload.length = 94208 := by
  obtain ⟨h1, h2, h3⟩ := record_run_chunk_count_and_payload okEnv 1 rfl rfl
    (fun j => rfl) (by rw [chunks_needed_eq]; decide)
    (fun j => by rw [show okEnv.read j = List.replicate 2048 0 from rfl, List.length_replicate]; norm_num)
  exact ⟨h1.trans (by norm_num), h3.trans (by norm_num)⟩

/-- Counterexample to claim C2 as stated: at duration 1 s the per-chunk
loop runs `int(48000 / 1024 * 1) = 46` iterations, but
`ceil(1 * 48000 / 1024) = 47`. -/
theorem loop_iterations_ne_ceil :
    (record_thread okEnv 1).frames.length = 46 ∧ (48000 * 1 + 1024 - 1) / 1024 = 47 := by
  constructor
  · rw [record_thread_noerr okEnv 1 rfl rfl (fun j => rfl)]
    show (readLoop okEnv (chunks_needed 1) 0).1.length = 46
    rw [readLoop_length okEnv (fun j => rfl), chunks_needed_eq]
    show min (48000 * 1 / 1024) (1000000 - 0) = 46
    omega
  · decide

/-- Claim C2 as amended: the per-chunk loop runs exactly
floor(duration * RATE / CHUNK) iterations (absent cancellation and
errors) — `int()` truncates, it does not round up. -/
theorem loop_iterations_floor (env : RecEnv) (duration : ℕ)
    (ho : env.openOk = true) (hs : env.saveOk = true)
    (hr : ∀ j, env.readErr j = false)
    (hcancel : chunks_needed duration ≤ env.cancelAt) :
    (record_thread env duration).frames.length = RATE * duration / CHUNK := by
  rw [record_thread_noerr env duration ho hs hr]
  show (readLoop env (chunks_needed duration) 0).1.length = _
  rw [chunks_needed_eq] at hcancel
  rw [readLoop_length env hr, chunks_needed_eq]
  omega

/-- Witness for the amended C2 at duration 2 s: floor(96000/1024) = 93
iterations. -/
theorem loop_iterations_floor_witness :
    (record_thread okEnv 2).frames.length = 93 := by
  have h := loop_iterations_floor okEnv 2 rfl rfl (fun j => rfl)
    (by rw [chunks_needed_eq]; decide)
  exact h.trans (by norm_num)

theorem sqrt_level_mono {s1 n1 s2 n2 : ℕ} (hn1 : 0 < n1) (hn2 : 0 < n2)
    (h : s1 * n2 ≤ s2 * n1) :
    Nat.sqrt (10000 * s1 * n1) / (n1 * 32768) ≤ Nat.sqrt (10000 * s2 * n2) / (n2 * 32768) := by
  set k := Nat.sqrt (10000 * s1 * n1) / (n1 * 32768) with hk
  have h1 : k * (n1 * 32768) ≤ Nat.sqrt (10000 * s1 * n1) := Nat.div_mul_le_self _ _
  have h2 : Nat.sqrt (10000 * s1 * n1) * Nat.sqrt (10000 * s1 * n1) ≤ 10000 * s1 * n1 :=
    Nat.sqrt_le _
  have h3 : (k * (n1 * 32768)) * (k * (n1 * 32768)) ≤ 10000 * s1 * n1 :=
    le_trans (Nat.mul_le_mul h1 h1) h2
  have h4 : (k * (n2 * 32768)) * (k * (n2 * 32768)) * (n1 * n1) ≤
      (10000 * s2 * n2) * (n1 * n1) := by
    calc (k * (n2 * 32768)) * (k * (n2 * 32768)) * (n1 * n1)
        = ((k * (n1 * 32768)) * (k * (n1 * 32768))) * (n2 * n2) := by ring
      _ ≤ (10000 * s1 * n1) * (n2 * n2) := Nat.mul_le_mul_right _ h3
      _ = (10000 * n1 * n2) * (s1 * n2) := by ring
      _ ≤ (10000 * n1 * n2) * (s2 * n1) := Nat.mul_le_mul_left _ h
      _ = (10000 * s2 * n2) * (n1 * n1) := by ring
  have h5 : (k * (n2 * 32768)) * (k * (n2 * 32768)) ≤ 10000 * s2 * n2 :=
    Nat.le_of_mul_le_mul_right h4 (Nat.mul_pos hn1 hn1)
  have h6 : k * (n2 * 32768) ≤ Nat.sqrt (10000 * s2 * n2) := Nat.le_sqrt.mpr h5
  exact (Nat.le_div_iff_mul_le (Nat.mul_pos hn2 (by norm_num))).mpr h6

/-- Claim C3: the per-chunk level computation always yields an integer in
[0, 100] (it is a natural number, hence never negative), an empty chunk
yields exactly 0, an all-zero chunk yields exactly 0 (in particular the
computation is total on silence), and the level is monotonic
non-decreasing in the chunk's RMS amplitude — RMS(xs) ≤ RMS(ys) is
expressed by cross-multiplying the mean squares:
`sumSq xs * ys.length ≤ sumSq ys * xs.length`. -/
theorem compute_level_props :
    (∀ chunk : List ℤ, compute_level chunk ≤ 100) ∧
    compute_level [] = 0 ∧
    (∀ chunk : List ℤ, (∀ x ∈ chunk, x = 0) → compute_level chunk = 0) ∧
    (∀ xs ys : List ℤ, xs ≠ [] → ys ≠ [] →
      sumSq xs * ys.length ≤ sumSq ys * xs.length →
      compute_level xs ≤ compute_level ys) := by
  refine ⟨?_, rfl, ?_, ?_⟩
  · intro chunk
    unfold compute_level
    split
    · omega
    · exact min_le_left _ _
  · intro chunk hz
    have h0 : sumSq chunk = 0 := by
      refine List.sum_eq_zero (fun y hy => ?_)
      obtain ⟨x, hx, rfl⟩ := List.mem_map.mp hy
      rw [hz x hx]
      rfl
    unfold compute_level
    split
    · rfl
    · rw [h0]
      simp
  · intro xs ys hxs hys hle
    have hnx : xs.length ≠ 0 := fun h => hxs (List.length_eq_zero.mp h)
    have hny : ys.length ≠ 0 := fun h => hys (List.length_eq_zero.mp h)
    unfold compute_level
    rw [if_neg hnx, if_neg hny]
    exact min_le_min (le_refl 100)
      (sqrt_level_mono (Nat.pos_of_ne_zero hnx) (Nat.pos_of_ne_zero hny) hle)

/-- Witness for C3: silence maps to level 0, and a quieter chunk gets a
level no larger than a louder one. -/
theorem compute_level_props_witness :
    compute_level [0, 0, 0, 0] = 0 ∧
    compute_level [(1000 : ℤ)] ≤ compute_level [2000, 2000] := by
  exact ⟨compute_level_props.2.2.1 [0, 0, 0, 0] (by decide),
    compute_level_props.2.2.2 [(1000 : ℤ)] [2000, 2000] (by decide) (by decide) (by decide)⟩

/-- Claim C4: a run cancelled after k chunks (0 < k < total) keeps the
frames already captured, writes a WAV whose payload is exactly k chunks'
worth of bytes, and emits `recording_complete` with success = true. -/
theorem cancelled_run_keeps_frames (env : RecEnv) (duration k : ℕ)
    (ho : env.openOk = true) (hs : env.saveOk = true)
    (hr : ∀ j, env.readErr j = false)
    (hcancel : env.cancelAt = k) (hk0 : 0 < k) (hklt : k < chunks_needed duration)
    (hread : ∀ j, (env.read j).length = CHUNK * SAMPLE_WIDTH * CHANNELS) :
    (record_thread env duration).frames.length = k ∧
    (record_thread env duration).savedWav =
      some (save_wav (record_thread env duration).frames) ∧
    (save_wav (record_thread env duration).frames).payload.length =
      k * (CHUNK * SAMPLE_WIDTH * CHANNELS) ∧
    (record_thread env duration).emitted.1 = true := by
  rw [record_thread_noerr env duration ho hs hr]
  have hlen : (readLoop env (chunks_needed duration) 0).1.length = k := by
    rw [readLoop_length env hr]
    omega
  have hflat : (readLoop env (chunks_needed duration) 0).1.flatten.length =
      (readLoop env (chunks_needed duration) 0).1.length *
        (CHUNK * SAMPLE_WIDTH * CHANNELS) := by
    refine flatten_length_const _ _ (fun a ha => ?_)
    obtain ⟨j, rfl⟩ := readLoop_frames_mem env _ _ a ha
    exact hread j
  refine ⟨hlen, rfl, ?_, rfl⟩
  show (readLoop env (chunks_needed duration) 0).1.flatten.length = _
  rw [hflat, hlen]

/-- Witness for C4: cancelling a 1-second run at chunk 5 keeps 5 chunks
(10240 payload bytes) and still reports success. -/
theorem cancelled_run_keeps_frames_witness :
    (record_thread cancelEnv 1).frames.length = 5 ∧
    (save_wav (record_thread cancelEnv 1).frames).payload.length = 10240 ∧
    (record_thread cancelEnv 1).emitted.1 = true := by
  obtain ⟨h1, h2, h3, h4⟩ := cancelled_run_keeps_frames cancelEnv 1 5 rfl rfl
    (fun j => rfl) rfl (by decide) (by rw [chunks_needed_eq]; decide)
    (fun j => by
      rw [show cancelEnv.read j = List.replicate 2048 0 from rfl, List.length_replicate]
      norm_num)
  exact ⟨h1, h3.trans (by norm_num), h4⟩

/-- Counterexample to claim C5 as stated: when a device read raises after
the stream was opened, `_record_thread` jumps to its `except` arm without
ever running `stream.stop_stream()` / `stream.close()` — there is no
`finally`-style guaranteed cleanup — so the run terminates with the
stream still open. -/
theorem stream_left_open_on_read_error :
    (record_thread readErrEnv 1).streamOpened = true ∧
    (record_thread readErrEnv 1).streamClosed = false := by
  have h46 : chunks_needed 1 = 46 := by rw [chunks_needed_eq]; decide
  have hloop : readLoop readErrEnv (chunks_needed 1) 0 = ([], true) := by
    rw [h46]
    decide
  unfold record_thread
  rw [hloop]
  exact ⟨rfl, rfl⟩

/-- Claim C5 as amended: given the stream opened, the stream is stopped
and closed exactly when the chunk-read loop raised no exception — on
natural completion, on cancellation, and even when `_save_wav`
subsequently fails (the save runs after the close); but a device error
raised inside the read loop ends the run without releasing the stream. -/
theorem stream_closed_iff_no_read_error (env : RecEnv) (duration : ℕ)
    (ho : env.openOk = true) :
    ((record_thread env duration).streamClosed = true ↔
      (readLoop env (chunks_needed duration) 0).2 = false) ∧
    (record_thread env duration).streamOpened = true := by
  unfold record_thread
  rw [if_neg (by simp [ho])]
  cases hb : (readLoop env (chunks_needed duration) 0).2 with
  | true => simp [hb]
  | false =>
    cases hsv : env.saveOk with
    | true => simp [hb, hsv]
    | false => simp [hb, hsv]

/-- Witness for the amended C5: in the benign environment the 1-second
run closes its stream (the loop raised nothing). -/
theorem stream_closed_iff_no_read_error_witness :
    (record_thread okEnv 1).streamClosed = true := by
  refine ((stream_closed_iff_no_read_error okEnv 1 rfl).1).mpr ?_
  exact readLoop_noerr_snd okEnv (fun j => rfl) _ 0

/-- Counterexample to claim C6 as stated: on a malformed test file the
playback thread emits no completion event at all — `_play_test_thread`
has a bare `except: pass` and the code defines no playback completion
signal — so no event with a failure flag (and no `FormatError`) is ever
produced.  (No partial audio is written, which is the part of the claim
that does hold.) -/
theorem playback_failure_emits_no_event :
    (play_test badHeaderEnv).emitted = none ∧
    (play_test badHeaderEnv).written = [] := by
  decide

/-- Claim C6 as amended: when the test file is absent `play_test` returns
False without starting playback; when the WAV header is malformed or the
output device cannot be opened the exception is swallowed silently.  In
every such failure case no completion event is emitted (none exists for
playback) and no audio block is written to the output device.  The file's
sample width is never validated, so no `FormatError` is raised either. -/
theorem playback_failure_silent (env : PlayEnv)
    (h : env.fileExists = false ∨ env.headerOk = false ∨ env.deviceOk = false) :
    (play_test env).written = [] ∧
    (play_test env).emitted = none ∧
    (env.fileExists = false → (play_test env).started = false) := by
  unfold play_test
  cases hf : env.fileExists with
  | false => simp [hf]
  | true =>
    have h3 : env.headerOk = false ∨ env.deviceOk = false := by
      rcases h with h | h | h
      · rw [hf] at h
        exact absurd h (by decide)
      · exact Or.inl h
      · exact Or.inr h
    cases hh : env.headerOk with
    | false => simp [hf, hh]
    | true =>
      rcases h3 with h3 | h3
      · rw [hh] at h3
        exact absurd h3 (by decide)
      · simp [hf, hh, h3]

/-- Witness for the amended C6: with the test file absent, nothing is
written, no event is emitted, and the thread is never started. -/
theorem playback_failure_silent_witness :
    (play_test absentFileEnv).written = [] ∧
    (play_test absentFileEnv).emitted = none ∧
    (absentFileEnv.fileExists = false → (play_test absentFileEnv).started = false) :=
  playback_failure_silent absentFileEnv (Or.inl rfl)

/-- Claim C7: every device or file error during a capture run — a failing
device open, a device read raising inside the loop, or a failing WAV
serialization — is caught by the `try`/`except` spanning the whole of
`_record_thread` and converted into a terminal `recording_complete` event
with success = false and a non-empty message.  `record_thread` is a total
function into `RunResult`, every run yields exactly one terminal event,
and no exception escapes the thread body. -/
theorem errors_become_failure_event (env : RecEnv) (duration : ℕ)
    (h : env.openOk = false ∨ (readLoop env (chunks_needed duration) 0).2 = true ∨
      env.saveOk = false) :
    (record_thread env duration).emitted.1 = false ∧
    (record_thread env duration).emitted.2 ≠ "" := by
  unfold record_thread
  by_cases ho : env.openOk = true
  · rw [if_neg (by simp [ho])]
    have h2 : (readLoop env (chunks_needed duration) 0).2 = true ∨ env.saveOk = false := by
      rcases h with h | h | h
      · rw [ho] at h
        exact absurd h (by decide)
      · exact Or.inl h
      · exact Or.inr h
    cases hb : (readLoop env (chunks_needed duration) 0).2 with
    | true =>
      rw [if_pos hb]
      refine ⟨rfl, ?_⟩
      show ("Error: read failed" : String) ≠ ""
      decide
    | false =>
      rcases h2 with h2 | h2
      · rw [hb] at h2
        exact absurd h2 (by decide)
      · rw [if_neg (by rw [hb]; decide), if_neg (by rw [h2]; decide)]
        refine ⟨rfl, ?_⟩
        show ("Error: save failed" : String) ≠ ""
        decide
  · rw [if_pos ho]
    refine ⟨rfl, ?_⟩
    show ("Error: open failed" : String) ≠ ""
    decide

/-- Witness for C7: a failing device open yields a failure event with a
non-empty message. -/
theorem errors_become_failure_event_witness :
    (record_thread openErrEnv 1).emitted.1 = false ∧
    (record_thread openErrEnv 1).emitted.2 ≠ "" :=
  errors_become_failure_event openErrEnv 1 (Or.inl rfl)

/-- Counterexample to claim C8 as stated: `MainWindow.start_recording`
checks only `self.is_recording`, not `self.is_testing`, so a request to
start a dataset capture while a test recording is active is NOT rejected:
it proceeds and opens a second device stream. -/
theorem capture_during_test_not_rejected :
    testingState.is_testing = true ∧
    start_recording testingState ≠ testingState ∧
    (start_recording testingState).deviceOpens = 2 := by
  decide

/-- Claim C8 as amended: a dataset-capture start is rejected (state
unchanged, no device-open call) exactly while a dataset capture is
already active — an active test recording does not block it — and a
test-recording start is rejected while either a test or a dataset
capture is active. -/
theorem capture_start_guards (s : UiState) :
    (s.is_recording = true → start_recording s = s) ∧
    (s.is_testing = true ∨ s.is_recording = true → record_test s = s) := by
  constructor
  · intro h
    unfold start_recording
    rw [if_pos h]
  · intro h
    unfold record_test
    rw [if_pos h]

/-- Witness for the amended C8: both guards reject with the state (and
hence the device-open count) unchanged. -/
theorem capture_start_guards_witness :
    start_recording recordingState = recordingState ∧
    record_test testingState = testingState :=
  ⟨(capture_start_guards recordingState).1 rfl,
    (capture_start_guards testingState).2 (Or.inl rfl)⟩

/-- Claim C9: serializing the WavFile that `_save_wav` builds from an
ordered sequence of PCM chunks (mono, 2-byte width, 48000 Hz) and parsing
the bytes back yields the identical channel count, sample rate and sample
width, and a payload byte-identical to the concatenation of the chunks in
original order. -/
theorem wav_round_trip (chunks : List (List ℕ))
    (h : chunks.flatten.length < 4294967296) :
    wav_parse (wav_file_bytes (save_wav chunks)) =
      some ((save_wav chunks).nchannels, (save_wav chunks).framerate,
        (save_wav chunks).sampwidth, chunks.flatten) := by
  show wav_parse (wav_serialize 1 2 48000 chunks.flatten) = some (1, 48000, 2, chunks.flatten)
  exact wav_parse_serialize chunks.flatten h

/-- Witness for C9 on a small concrete chunk sequence. -/
theorem wav_round_trip_witness :
    wav_parse (wav_file_bytes (save_wav [[1, 2], [3]])) = some (1, 48000, 2, [1, 2, 3]) := by
  have h := wav_round_trip [[1, 2], [3]] (by decide)
  exact h.trans (by decide)

/-- Claim C10: a run that captures zero chunks — because the chunk budget
`int(RATE / CHUNK * duration)` is zero or because cancellation is observed
before the first read — still writes a WAV file with the fixed
mono/48000 Hz/16-bit header and an empty payload (whose serialized form
parses back as a valid WAV), and still emits `recording_complete` with
success = true. -/
theorem empty_run_writes_valid_wav (env : RecEnv) (duration : ℕ)
    (ho : env.openOk = true) (hs : env.saveOk = true)
    (h : chunks_needed duration = 0 ∨ env.cancelAt = 0) :
    (record_thread env duration).savedWav =
      some { nchannels := 1, sampwidth := 2, framerate := 48000, payload := [] } ∧
    (record_thread env duration).emitted.1 = true ∧
    wav_parse (wav_file_bytes
      { nchannels := 1, sampwidth := 2, framerate := 48000, payload := [] }) =
      some (1, 48000, 2, []) := by
  have hloop : readLoop env (chunks_needed duration) 0 = ([], false) := by
    rcases h with h | h
    · rw [h]
      rfl
    · cases hn : chunks_needed duration with
      | zero => rfl
      | succ n => simp [readLoop, h]
  unfold record_thread
  rw [if_neg (by simp [ho]), hloop]
  rw [if_neg (by decide), if_pos hs]
  exact ⟨rfl, rfl, by decide⟩

/-- Witness for C10: cancelling before the first read still saves an
empty but valid WAV and reports success. -/
theorem empty_run_writes_valid_wav_witness :
    (record_thread cancel0Env 1).savedWav =
      some { nchannels := 1, sampwidth := 2, framerate := 48000, payload := [] } ∧
    (record_thread cancel0Env 1).emitted.1 = true := by
  have h := empty_run_writes_valid_wav cancel0Env 1 rfl rfl (Or.inr rfl)
  exact ⟨h.1, h.2.1⟩
